import Mathlib

/-!
Verification development for the school-psychology web application
(student search modal, PDF export of attention records, auth gate,
appointment scheduling, local REST server).

Each definition is a shallow embedding of a function of the repository;
doc comments name the source file the definition is taken from.
-/

namespace PsychApp

/-! ## Student search (StudentSearchModal.searchStudents)

The modal builds one supabase query and then, for every whitespace token of
the trimmed search term, chains one or() filter:

  words.forEach(word =>
    query = query.or(first_name.ilike.%word%,last_name.ilike.%word%))

Each chained or() call appends a separate top-level filter parameter to the
request, and PostgREST combines distinct top-level filters with logical AND.
The embedding below therefore conjoins the per-token disjunctions. -/

structure Student where
  id : Nat
  first_name : String
  last_name : String
  deriving DecidableEq, Repr

/-- Whitespace test of the regular expression class used by the split, on
the characters the application data uses. -/
def isJsWs (c : Char) : Bool :=
  c == ' ' || c == '\t' || c == '\n' || c == '\r'

/-- Lowercasing of one character, the effect of case-insensitive matching
on the unaccented letters the filters compare. -/
def asciiLower (c : Char) : Char :=
  if 'A' ≤ c && c ≤ 'Z' then Char.ofNat (c.toNat + 32) else c

/-- Uppercasing of one character, the effect of toUpperCase on the role
strings the gate compares. -/
def asciiUpper (c : Char) : Char :=
  if 'a' ≤ c && c ≤ 'z' then Char.ofNat (c.toNat - 32) else c

/-- Boolean test that pat occurs at the start of the second list. -/
def listStartsWith (pat : List Char) : List Char → Bool
  | [] => pat.isEmpty
  | c :: cs =>
    match pat with
    | [] => true
    | p :: ps => p == c && listStartsWith ps cs

/-- Boolean test that pat occurs as a contiguous run inside the list. -/
def containsSub (pat : List Char) : List Char → Bool
  | [] => pat.isEmpty
  | c :: cs => listStartsWith pat (c :: cs) || containsSub pat cs

/-- Case-insensitive substring match, the meaning of an ilike filter with a
pattern of the shape percent-token-percent. -/
def ilikeContains (hay pat : String) : Bool :=
  containsSub (pat.toList.map asciiLower) (hay.toList.map asciiLower)

/-- Maximal nonblank runs of a character list; the first argument holds the
characters of the run being read, most recent first. -/
def splitTokensAux : List Char → List Char → List String
  | acc, [] => if acc.isEmpty then [] else [String.mk acc.reverse]
  | acc, c :: cs =>
    if isJsWs c then
      if acc.isEmpty then splitTokensAux [] cs
      else String.mk acc.reverse :: splitTokensAux [] cs
    else splitTokensAux (c :: acc) cs

/-- Tokenization of the search term: searchTerm.trim() followed by a split
on whitespace runs, dropping empty words, as in searchStudents; the result
is the list of maximal nonblank runs. -/
def tokenize (q : String) : List String :=
  splitTokensAux [] q.toList

/-- One token matches a student when it is a case-insensitive substring of
the first name or of the last name (the two ilike arms of one or() call). -/
def tokenMatches (w : String) (st : Student) : Bool :=
  ilikeContains st.first_name w || ilikeContains st.last_name w

/-- The predicate the chained filters impose on a row: every token filter
must hold, since PostgREST conjoins the chained top-level or() filters. -/
def searchMatches (q : String) (st : Student) : Bool :=
  (tokenize q).all (fun w => tokenMatches w st)

/-- Result list of searchStudents: the rows passing every chained filter,
capped by the limit(10) call. -/
def searchStudents (students : List Student) (q : String) : List Student :=
  (students.filter (searchMatches q)).take 10

/-! ## PDF export (generateAttentionPDF, layout revision with printSection)

The export lays content on an a4 page in millimetres, keeping a vertical
cursor y.  newPage starts a fresh page with a small continuation header and
resets the cursor; checkPage starts a new page when the needed height would
cross the bottom margin; printSection draws a section title and then the
wrapped lines of the text one at a time, each line checked individually.
After the signature block, a second pass stamps the footer on every page.
The drawing calls of the third-party canvas are embedded as items recording
what was drawn and at which cursor position; the third-party text
measurement (splitTextToSize) and the table renderer (autoTable) are given
simple executable models, which none of the page-break arithmetic depends
on. -/

/-- Attention record as the export receives it; the optional time and
psychologist fields are modelled by the empty string, which the source
treats the same way through its falsy-default expressions. -/
structure Attention where
  student_name : String
  grade : String
  date : String
  time : String
  reason : String
  observations : String
  recommendations : String
  psychologist_name : String
  deriving DecidableEq, Repr

inductive ItemKind where
  | headerBand
  | headerText
  | docTitle
  | table
  | contHeader
  | sectionTitle
  | sectionLine
  | sigRule
  | sigText
  | footerText
  | footerPage
  deriving DecidableEq, Repr

/-- One drawing call, recording its kind, the text drawn, the horizontal
position and the vertical cursor position; sec tags the free-text section a
wrapped line belongs to (1 reason, 2 observations, 3 recommendations). -/
structure PdfItem where
  kind : ItemKind
  text : String
  x : Nat
  y : Nat
  sec : Nat := 0
  deriving DecidableEq, Repr

/-- Page width of the a4 format in millimetres. -/
def pageW : Nat := 210
/-- Page height of the a4 format in millimetres. -/
def pageH : Nat := 297
/-- Left margin. -/
def marginL : Nat := 16
/-- Right margin. -/
def marginR : Nat := 16
/-- Bottom margin reserved for the signature area. -/
def marginB : Nat := 28
/-- Usable text width between the margins. -/
def contentW : Nat := pageW - marginL - marginR
/-- Lowest cursor position a block may extend to: pageH - marginB. -/
def limitY : Nat := pageH - marginB

/-- Placeholder printed for empty free-text fields. -/
def dash : String := "—"

/-- Falsy-default of the source: the empty string is replaced by the
fallback, any other string is kept. -/
def jsOr (s dflt : String) : String := if s = "" then dflt else s

/-- Layout state: the finished pages in order, the items of the current
page in drawing order, and the vertical cursor. -/
structure PdfState where
  done : List (List PdfItem)
  cur : List PdfItem
  y : Nat
  deriving Repr

/-- Continuation mini-header drawn by newPage at the top of every page
after the first. -/
def contItem : PdfItem :=
  { kind := .contHeader,
    text := "Registro de Atención Psicológica — continuación",
    x := pageW - marginR, y := 14 }

/-- One drawing call appended to the current page. -/
def emit (it : PdfItem) (s : PdfState) : PdfState :=
  { s with cur := s.cur ++ [it] }

/-- Helper newPage: finish the current page, draw the continuation header
at y = 14, and leave the cursor at 22 (14 plus the 8 added after it). -/
def newPage (s : PdfState) : PdfState :=
  { done := s.done ++ [s.cur], cur := [contItem], y := 22 }

/-- Helper checkPage: start a new page when the needed height would cross
the bottom margin (y + needed > pageH - marginB). -/
def checkPage (needed : Nat) (s : PdfState) : PdfState :=
  if limitY < s.y + needed then newPage s else s

/-- Greedy chunks of at most n characters; model of the width-driven
wrapping of the third-party text measurement. -/
def chunkCharsFuel : Nat → Nat → List Char → List (List Char)
  | 0, _, cs => [cs]
  | fuel + 1, n, cs =>
    if n = 0 then [cs]
    else if cs.length ≤ n then [cs]
    else cs.take n :: chunkCharsFuel fuel n (cs.drop n)

def chunkChars (n : Nat) (cs : List Char) : List (List Char) :=
  chunkCharsFuel cs.length n cs

/-- Model of the third-party splitTextToSize: the text is cut at explicit
line breaks, and every resulting line is wrapped to the given width
assuming an average glyph width of 2 millimetres.  The page-break logic
proved below holds for every wrapping outcome. -/
def splitTextToSize (text : String) (maxWidth : Nat) : List String :=
  (splitTokensLines text.toList).flatMap
    (fun ln => (chunkChars (maxWidth / 2) ln).map String.mk)
where
  /-- Cut a character list at newline characters. -/
  splitTokensLines : List Char → List (List Char)
    | [] => [[]]
    | c :: cs =>
      if c = '\n' then [] :: splitTokensLines cs
      else
        match splitTokensLines cs with
        | [] => [[c]]
        | ln :: rest => (c :: ln) :: rest

/-- Wrapped lines of one section, drawn one at a time: each line is first
checked against the page-break threshold with its own height of 7, then
drawn at the cursor, which advances by 7. -/
def printLines (sec : Nat) : List String → PdfState → PdfState
  | [], s => s
  | line :: rest, s =>
    let s := checkPage 7 s
    let s := emit { kind := .sectionLine, text := line, x := marginL,
                    y := s.y, sec := sec } s
    printLines sec rest { s with y := s.y + 7 }

/-- Helper printSection: advance by the gap, check for 12 millimetres, draw
the bold title, advance by 6, then wrap the text (or the placeholder dash
when the text is empty) to the content width and draw the lines. -/
def printSection (title txt : String) (gapBefore sec : Nat)
    (s : PdfState) : PdfState :=
  let s := { s with y := s.y + gapBefore }
  let s := checkPage 12 s
  let s := emit { kind := .sectionTitle, text := title, x := marginL,
                  y := s.y } s
  let s := { s with y := s.y + 6 }
  printLines sec (splitTextToSize (jsOr txt dash) contentW) s

/-- Row height of the table model. -/
def tableRowH : Nat := 10

/-- Emission of the body rows of the metadata table. -/
def emitTableRows (rowY : Nat) : List (String × String) → PdfState → PdfState
  | [], s => s
  | r :: rest, s =>
    emitTableRows (rowY + tableRowH) rest
      (emit { kind := .table, text := r.1 ++ ": " ++ r.2, x := marginL,
              y := rowY } s)

/-- Model of the third-party autoTable call: the body rows are recorded as
items from the given start position, and the cursor is left at the final
position of the table (startY plus the height of the rows). -/
def autoTableModel (startY : Nat) (rows : List (String × String))
    (s : PdfState) : PdfState :=
  let s := emitTableRows startY rows s
  { s with y := startY + rows.length * tableRowH }

/-- Month names of the es locale used by the date formatting. -/
def monthNameEs : Nat → String
  | 1 => "enero" | 2 => "febrero" | 3 => "marzo" | 4 => "abril"
  | 5 => "mayo" | 6 => "junio" | 7 => "julio" | 8 => "agosto"
  | 9 => "septiembre" | 10 => "octubre" | 11 => "noviembre"
  | 12 => "diciembre" | _ => ""

def isLeapYear (y : Nat) : Bool :=
  (y % 4 == 0 && y % 100 != 0) || y % 400 == 0

def daysInMonth (y m : Nat) : Nat :=
  if m == 2 then (if isLeapYear y then 29 else 28)
  else if m == 4 || m == 6 || m == 9 || m == 11 then 30
  else 31

/-- Numeric value of a list of decimal digit characters. -/
def digitsToNat (cs : List Char) : Nat :=
  cs.foldl (fun n c => n * 10 + (c.toNat - 48)) 0

/-- Parsing of the date field as the Date constructor accepts the ISO
calendar-date form the application stores (yyyy-mm-dd); any other string
yields an invalid date. -/
def parseISODate (s : String) : Option (Nat × Nat × Nat) :=
  match s.toList.splitOn '-' with
  | [ys, ms, ds] =>
    if ys.length = 4 && ms.length = 2 && ds.length = 2
        && ys.all Char.isDigit && ms.all Char.isDigit
        && ds.all Char.isDigit then
      let yn := digitsToNat ys
      let mn := digitsToNat ms
      let dn := digitsToNat ds
      if 1 ≤ mn && mn ≤ 12 && 1 ≤ dn && dn ≤ daysInMonth yn mn then
        some (yn, mn, dn)
      else none
    else none
  | _ => none

def pad2 (n : Nat) : String :=
  if n < 10 then "0" ++ toString n else toString n

/-- Date formatting of the export: format(new Date(date), dd de MMMM,
yyyy) with the es locale; an invalid date makes the formatter throw, which
the embedding reports as none. -/
def formatLongDate (s : String) : Option String :=
  (parseISODate s).map (fun d =>
    pad2 d.2.2 ++ " de " ++ monthNameEs d.2.1 ++ ", " ++ toString d.1)

/-- Replacement of every maximal whitespace run by a single underscore, the
global regex replace applied to the student name for the filename; the
first argument records whether the previous character was whitespace. -/
def collapseWsRun (prevWs : Bool) : List Char → List Char
  | [] => []
  | c :: cs =>
    if isJsWs c then
      (if prevWs then [] else ['_']) ++ collapseWsRun true cs
    else c :: collapseWsRun false cs

/-- Whitespace-to-underscore replacement on a string. -/
def replaceWsRuns (s : String) : String :=
  String.mk (collapseWsRun false s.toList)

/-- Filename passed to the save call. -/
def pdfFileName (a : Attention) : String :=
  "Atencion_" ++ replaceWsRuns a.student_name ++ "_" ++ a.date ++ ".pdf"

/-- Footer line with the generation timestamp. -/
def footerLine (genTime : String) : String :=
  "I.E.P. Valores y Ciencias - Área de Psicología - Generado: " ++ genTime

/-- Page-number footer item of page p of total pages. -/
def pageFooterItem (p total : Nat) : PdfItem :=
  { kind := .footerPage,
    text := "Pág. " ++ toString p ++ " / " ++ toString total,
    x := pageW - marginR, y := pageH - 8 }

/-- Second pass of the export: walk the already-rendered pages from page
number p on and stamp the timestamp and the page indicator on each. -/
def stampFrom (genTime : String) (total : Nat) :
    Nat → List (List PdfItem) → List (List PdfItem)
  | _, [] => []
  | p, pg :: rest =>
    (pg ++ [{ kind := .footerText, text := footerLine genTime,
              x := pageW / 2, y := pageH - 8 },
            pageFooterItem p total]) :: stampFrom genTime total (p + 1) rest

/-- Footer pass over all pages, with the total taken after layout is
complete. -/
def addFooters (genTime : String) (pages : List (List PdfItem)) :
    List (List PdfItem) :=
  stampFrom genTime pages.length 1 pages

/-- Content layout of one record: header band and titles, metadata table,
the three free-text sections, and the signature block. -/
def layoutAttention (dateStr : String) (a : Attention) : PdfState :=
  let s : PdfState := { done := [], cur := [], y := 0 }
  let s := emit { kind := .headerBand, text := "", x := 0, y := 0 } s
  let s := emit { kind := .headerText, text := "I.E.P. VALORES Y CIENCIAS",
                  x := pageW / 2, y := 17 } s
  let s := emit { kind := .headerText, text := "Área de Psicología",
                  x := pageW / 2, y := 28 } s
  let s := emit { kind := .docTitle,
                  text := "REGISTRO DE ATENCIÓN PSICOLÓGICA",
                  x := pageW / 2, y := 52 } s
  let s := { s with y := 60 }
  let s := autoTableModel s.y
    [("Estudiante", jsOr a.student_name dash),
     ("Grado y Sección", jsOr a.grade dash),
     ("Fecha de Atención", dateStr),
     ("Hora", jsOr a.time dash),
     ("Psicólogo(a)", jsOr a.psychologist_name dash)] s
  let s := { s with y := s.y + 4 }
  let s := printSection "Motivo de Consulta:" a.reason 6 1 s
  let s := printSection "Observaciones:" a.observations 8 2 s
  let s := printSection "Recomendaciones / Plan de Acción:"
    a.recommendations 8 3 s
  let s := { s with y := s.y + 12 }
  let s := checkPage 30 s
  let s := emit { kind := .sigRule, text := "", x := pageW / 2 - 40,
                  y := s.y } s
  let s := { s with y := s.y + 5 }
  let s := emit { kind := .sigText, text := "Firma del Profesional",
                  x := pageW / 2, y := s.y } s
  let s := { s with y := s.y + 5 }
  let s := emit { kind := .sigText, text := a.psychologist_name,
                  x := pageW / 2, y := s.y } s
  s

/-- Whole export: the date is formatted first (an invalid date string makes
the formatter throw, reported as none); then the content is laid out, the
pages are closed, the footer pass stamps every page, and the document is
saved under the deterministic filename. -/
def generateAttentionPDF (genTime : String) (a : Attention) :
    Option (List (List PdfItem) × String) :=
  match formatLongDate a.date with
  | none => none
  | some dateStr =>
    let s := layoutAttention dateStr a
    let pages := s.done ++ [s.cur]
    some (addFooters genTime pages, pdfFileName a)

/-- Pages of a generated document, empty when generation throws. -/
def pdfPagesOf (genTime : String) (a : Attention) : List (List PdfItem) :=
  ((generateAttentionPDF genTime a).map Prod.fst).getD []

/-- Filename of a generated document, empty when generation throws. -/
def pdfNameOf (genTime : String) (a : Attention) : String :=
  ((generateAttentionPDF genTime a).map Prod.snd).getD ""

/-- Check that the page with the given index holds at least one wrapped
line of the given free-text section. -/
def sectionOnPage (d : List (List PdfItem)) (pageIdx sec : Nat) : Bool :=
  (d.getD pageIdx []).any
    (fun it => it.kind == ItemKind.sectionLine && it.sec == sec)

/-- Texts of the wrapped lines of one free-text section within a list of
items. -/
def sectionFilter (sec : Nat) (items : List PdfItem) : List String :=
  items.filterMap
    (fun it => if it.kind = .sectionLine ∧ it.sec = sec then some it.text
               else none)

/-- Texts of the wrapped lines of one free-text section, over all pages. -/
def sectionTexts (d : List (List PdfItem)) (sec : Nat) : List String :=
  sectionFilter sec (d.flatMap id)

/-- All items of a layout state, finished pages first, in drawing order. -/
def stateItems (s : PdfState) : List PdfItem :=
  s.done.flatMap id ++ s.cur

/-- Height budget of an item checked against the bottom margin: wrapped
lines are checked for 7 millimetres, section titles for 12. -/
def itemOk (it : PdfItem) : Bool :=
  match it.kind with
  | .sectionLine => decide (it.y + 7 ≤ limitY)
  | .sectionTitle => decide (it.y + 12 ≤ limitY)
  | _ => true

def pageOkB (pg : List PdfItem) : Bool := pg.all itemOk

/-- Check over a whole document that every drawn section block respects the
bottom margin. -/
def docOkB (d : List (List PdfItem)) : Bool := d.all pageOkB

/-- Check that a page starts with the continuation mini-header. -/
def headCont (pg : List PdfItem) : Bool :=
  match pg with
  | it :: _ => it == contItem
  | [] => false

/-- Check that every page after the first starts with the continuation
mini-header. -/
def contOkB (d : List (List PdfItem)) : Bool :=
  (d.drop 1).all headCont

/-- Check from page number p on that each page carries the page-indicator
footer naming its own number out of the given total. -/
def footerStampedFrom (total : Nat) : Nat → List (List PdfItem) → Bool
  | _, [] => true
  | p, pg :: rest =>
    pg.any (fun it => it == pageFooterItem p total) &&
      footerStampedFrom total (p + 1) rest

/-- Check that every page of the document carries the page-indicator footer
with the actual total page count. -/
def footerStamped (d : List (List PdfItem)) : Bool :=
  footerStampedFrom d.length 1 d

/-- Invariant carried through the layout: every finished page and the
current page respect the bottom margin, and every page after the first
begins with the continuation mini-header. -/
def stOk (s : PdfState) : Prop :=
  docOkB s.done = true ∧ pageOkB s.cur = true ∧
    contOkB (s.done ++ [s.cur]) = true

/-! ## Auth gate (RequireAuth.tsx)

checkAuth reads the session; with no session it redirects to the portal
login.  With a session it fetches the profile row; on a lookup error or a
missing profile it only clears the loading flag and returns.  Otherwise it
compares the normalized role against the allowed list, setting forbidden or
user.  The render then shows the spinner while loading, the 403 view when
forbidden, and otherwise falls through to the children. -/

structure Session where
  userId : String
  deriving DecidableEq, Repr

structure Profile where
  id : String
  role : String
  full_name : String
  deriving DecidableEq, Repr

/-- Component state resulting from one checkAuth pass. -/
structure GateState where
  loading : Bool
  forbidden : Bool
  user : Option Profile
  deriving DecidableEq, Repr

inductive GateView where
  | spinner
  | forbidden403
  | children
  deriving DecidableEq, Repr

inductive GateResult where
  | redirectToLogin
  | view (v : GateView)
  deriving DecidableEq, Repr

/-- Removal of leading and trailing whitespace from a character list. -/
def trimChars (cs : List Char) : List Char :=
  ((cs.dropWhile isJsWs).reverse.dropWhile isJsWs).reverse

/-- Role normalization used on both sides of the comparison:
toUpperCase().trim(). -/
def normRole (r : String) : String :=
  String.mk (trimChars (r.toList.map asciiUpper))

/-- State after checkAuth settles; none models the redirect to the external
login portal taken when no session is present.  The error and missing
profile branches only stop the loading spinner (setLoading(false)) and
return, leaving forbidden false and user null. -/
def checkAuthState (session : Option Session)
    (profileResult : Except String (Option Profile))
    (allowedRoles : List String) : Option GateState :=
  match session with
  | none => none
  | some _ =>
    match profileResult with
    | .error _ => some { loading := false, forbidden := false, user := none }
    | .ok none => some { loading := false, forbidden := false, user := none }
    | .ok (some p) =>
      if allowedRoles.any (fun r => normRole r == normRole p.role) then
        some { loading := false, forbidden := false, user := some p }
      else
        some { loading := false, forbidden := true, user := none }

/-- Render logic of RequireAuth: spinner while loading, the 403 view when
forbidden, otherwise the children (the final unconditional return). -/
def renderGate (st : GateState) : GateView :=
  if st.loading then .spinner
  else if st.forbidden then .forbidden403
  else .children

/-- Full resolution of one navigation through the gate. -/
def resolveGate (session : Option Session)
    (profileResult : Except String (Option Profile))
    (allowedRoles : List String) : GateResult :=
  match checkAuthState session profileResult allowedRoles with
  | none => .redirectToLogin
  | some st => .view (renderGate st)

/-! ## Appointments (Schedule component and server.ts)

The Schedule view reads pending appointments of the signed-in psychologist
ordered by date and time; updateStatus writes the given status to the row
with the given id, with no guard on the current status.  The local server
mirrors this: GET /api/appointments filters status pending, and the PATCH
endpoint runs UPDATE appointments SET status = ? WHERE id = ?. -/

structure Appointment where
  id : Nat
  student_name : String
  grade : String
  date : String
  time : String
  status : String
  psychologist_id : Nat
  deriving DecidableEq, Repr

/-- Shared semantics of the three status-update sites: the supabase
update({status}).eq(id) call in Schedule.updateStatus, the same call in
NewAttention.handleSubmit, and the UPDATE statement of the PATCH endpoint.
Every row with the given id gets the new status; no other field and no
other row changes, and the current status is not consulted. -/
def updateAppointmentStatus (store : List Appointment) (i : Nat)
    (st : String) : List Appointment :=
  store.map (fun a => if a.id = i then { a with status := st } else a)

/-- Cancel action of the Schedule view: updateStatus(appt.id, cancelled). -/
def cancelAppointment (store : List Appointment) (i : Nat) : List Appointment :=
  updateAppointmentStatus store i "cancelled"

/-- Session logged from an appointment: update({status: completed}). -/
def completeAppointment (store : List Appointment) (i : Nat) : List Appointment :=
  updateAppointmentStatus store i "completed"

/-- Strict lexicographic comparison of character lists, the text ordering
the store applies to the date and time columns. -/
def charListLt : List Char → List Char → Bool
  | [], [] => false
  | [], _ :: _ => true
  | _ :: _, [] => false
  | a :: as, b :: bs => a < b || (a == b && charListLt as bs)

/-- Strict text comparison of two strings. -/
def strLt (a b : String) : Bool := charListLt a.toList b.toList

/-- Ordering key of the pending queries: date ascending, then time
ascending. -/
def apptLe (a b : Appointment) : Bool :=
  strLt a.date b.date ||
    (a.date == b.date && (a.time == b.time || strLt a.time b.time))

/-- Pending view of the local server: SELECT * FROM appointments WHERE
status = pending ORDER BY date ASC, time ASC. -/
def pendingAppointments (store : List Appointment) : List Appointment :=
  (store.filter (fun a => a.status == "pending")).mergeSort apptLe

/-- Pending view of the Schedule component: the same filter further
restricted to the signed-in psychologist. -/
def fetchAppointmentsFor (store : List Appointment) (uid : Nat) :
    List Appointment :=
  (store.filter (fun a =>
    a.psychologist_id == uid && a.status == "pending")).mergeSort apptLe

/-- Modelled from the spec: direct id lookup of an appointment.  The
repository has no by-id read endpoint for appointments; the spec requires a
cancelled appointment to remain retrievable by direct id lookup, so the
lookup is modelled as the first row with the given id. -/
def lookupAppointment (store : List Appointment) (i : Nat) :
    Option Appointment :=
  store.find? (fun a => a.id == i)

/-- Row-by-row check that an update changed nothing except, on rows whose
id is the target, the status field, which is set to the new value. -/
def onlyStatusChanged (i : Nat) (st : String)
    (old new : Appointment) : Bool :=
  new.id == old.id &&
  new.student_name == old.student_name &&
  new.grade == old.grade &&
  new.date == old.date &&
  new.time == old.time &&
  new.psychologist_id == old.psychologist_id &&
  (if old.id = i then new.status == st else new.status == old.status)

/-- Frame check over a whole store for one status update. -/
def updatePreservesFrame (store : List Appointment) (i : Nat)
    (st : String) : Bool :=
  (store.zip (updateAppointmentStatus store i st)).all
    (fun p => onlyStatusChanged i st p.1 p.2)

/-! ## Login endpoint (server.ts POST /api/login)

The handler selects the row matching both username and password; on a hit
it rest-destructures the password field away and answers success with the
remaining fields, otherwise it answers 401 with success false and only a
message. -/

structure UserRow where
  id : Nat
  username : String
  password : String
  full_name : String
  deriving DecidableEq, Repr

/-- Field list of a stored user row as the row object the query returns. -/
def userRowFields (u : UserRow) : List (String × String) :=
  [("id", toString u.id), ("username", u.username),
   ("password", u.password), ("full_name", u.full_name)]

/-- Rest-destructuring { password, ...userWithoutPassword }: every field
except the password key survives. -/
def omitField (k : String) (fs : List (String × String)) :
    List (String × String) :=
  fs.filter (fun f => f.1 ≠ k)

inductive LoginResult where
  | ok (user : List (String × String))
  | unauthorized
  deriving DecidableEq, Repr

/-- Row lookup of the login query: WHERE username = ? AND password = ?,
first hit. -/
def findUser (users : List UserRow) (un pw : String) : Option UserRow :=
  users.find? (fun u => u.username == un && u.password == pw)

/-- POST /api/login handler. -/
def loginHandler (users : List UserRow) (un pw : String) : LoginResult :=
  match findUser users un pw with
  | some u => .ok (omitField "password" (userRowFields u))
  | none => .unauthorized

/-- Keys present in a login response body beyond the success flag. -/
def resultFieldKeys : LoginResult → List String
  | .ok fs => fs.map Prod.fst
  | .unauthorized => []

/-! ## Concrete sample data used by witnesses and counterexamples -/

/-- Student row matching the first token of the two-token query below but
not the second. -/
def anaStudent : Student := { id := 1, first_name := "Ana", last_name := "Lopez" }

/-- Attention record with every free-text field empty and a valid date. -/
def emptyTextsAttention : Attention :=
  { student_name := "Juan Pérez García", grade := "5to Primaria A",
    date := "2026-02-15", time := "09:30", reason := "",
    observations := "", recommendations := "",
    psychologist_name := "Psic. Principal" }

/-- The same record with an empty date string, on which the Date
constructor yields an invalid date and the formatter throws. -/
def emptyDateAttention : Attention :=
  { emptyTextsAttention with date := "" }

/-- Free text of 25 short explicit lines, enough to overflow the first
page, whose free-text area holds 20 wrapped lines. -/
def longText : String :=
  String.mk (List.flatten (List.replicate 24 ['x', '\n'])) ++ "x"

/-- Attention record whose reason section spans two pages. -/
def longAttention : Attention := { emptyTextsAttention with reason := longText }

/-- Record agreeing with emptyTextsAttention on the student name and the
date but differing in every other field, used to show the filename depends
on name and date only. -/
def variantAttention : Attention :=
  { student_name := "Juan Pérez García", grade := "Otro Grado",
    date := "2026-02-15", time := "11:00", reason := "Motivo distinto",
    observations := "Obs", recommendations := "Rec",
    psychologist_name := "Otra Persona" }

/-- Appointment already completed, used to show that the cancel action
still overwrites its status. -/
def completedAppt : Appointment :=
  { id := 1, student_name := "Roberto Díaz", grade := "4to Primaria",
    date := "2026-03-01", time := "08:00", status := "completed",
    psychologist_id := 1 }

/-- Pending appointment used by the cancel scenario. -/
def pendingAppt : Appointment :=
  { id := 1, student_name := "Lucía Méndez", grade := "2do Secundaria",
    date := "2026-03-02", time := "10:30", status := "pending",
    psychologist_id := 1 }

/-- Second pending appointment of the same psychologist. -/
def otherAppt : Appointment :=
  { id := 2, student_name := "Kevin Quispe", grade := "5to Secundaria",
    date := "2026-03-03", time := "09:00", status := "pending",
    psychologist_id := 1 }

/-- Store holding the two pending appointments. -/
def demoStore : List Appointment := [pendingAppt, otherAppt]

/-- Seeded user row of the local server. -/
def demoUser : UserRow :=
  { id := 1, username := "admin", password := "admin123",
    full_name := "Psic. Principal" }

/-- User table holding the seeded row. -/
def demoUsers : List UserRow := [demoUser]

/-! # Theorems -/

/-! ## C1: multi-token student search -/

/-- C1 counterexample: the claim says a record matching only one token of
a two-token query is still returned.  The store row Ana Lopez matches the
token ana but the two-token query ana garcia returns nothing, because the
chained or() filters are conjoined. -/
theorem search_single_token_record_dropped :
    tokenMatches "ana" anaStudent = true ∧
    tokenMatches "garcia" anaStudent = false ∧
    searchStudents [anaStudent] "ana garcia" = [] := by decide

/-- C1 amended: the search returns a record exactly when EVERY token of
the query matches the first or last name as a case-insensitive substring
(the chained or() filters narrow, they do not widen); every returned
record matches every token, and whenever at most ten records match, every
record matching all tokens is returned. -/
theorem search_requires_every_token (students : List Student) (q : String)
    (st : Student) (hmem : st ∈ students)
    (hmatch : searchMatches q st = true)
    (hsmall : (students.filter (searchMatches q)).length ≤ 10) :
    st ∈ searchStudents students q ∧
    ∀ r ∈ searchStudents students q,
      (tokenize q).all (fun w => tokenMatches w r) = true := by
  constructor
  · unfold searchStudents
    rw [List.take_of_length_le hsmall]
    exact List.mem_filter.mpr ⟨hmem, hmatch⟩
  · intro r hr
    have hr2 := List.mem_of_mem_take hr
    exact (List.mem_filter.mp hr2).2

/-- C1 witness: on a store of one row matching the single-token query ana,
the row is returned. -/
theorem search_requires_every_token_witness :
    anaStudent ∈ searchStudents [anaStudent] "ana" :=
  (search_requires_every_token [anaStudent] "ana" anaStudent
    (by decide) (by decide) (by decide)).1

/-! ## C5: auth gate on profile lookup failure -/

/-- C5 counterexample: the claim says a profile lookup failure resolves to
a state rendering neither the 403 view nor the children.  On a concrete
failed lookup with a session present, the gate renders the children. -/
theorem gate_error_renders_children_concrete :
    resolveGate (some { userId := "u1" })
      (Except.error "profile fetch failed") ["PSICOLOGA"]
      = .view .children := rfl

/-- C5 amended: for every navigation where a session is present and the
profile lookup errors or returns no profile, the gate stops loading with
forbidden unset and user null, and the render falls through to the
children: no redirect, no 403 view, and not a blank screen. -/
theorem gate_error_falls_through_to_children (s : Session) (e : String)
    (roles : List String) :
    checkAuthState (some s) (.error e) roles
      = some { loading := false, forbidden := false, user := none } ∧
    resolveGate (some s) (.error e) roles = .view .children ∧
    checkAuthState (some s) (.ok none) roles
      = some { loading := false, forbidden := false, user := none } ∧
    resolveGate (some s) (.ok none) roles = .view .children :=
  ⟨rfl, rfl, rfl, rfl⟩

/-! ## C6: auth gate role comparison -/

/-- C6: with a session present and the profile fetched, the gate renders
the children exactly when some allowed role equals the profile role after
uppercasing and trimming, and renders the 403 view otherwise; roles
differing only in case or surrounding whitespace are accepted. -/
theorem gate_role_decision (s : Session) (p : Profile)
    (roles : List String) :
    (resolveGate (some s) (.ok (some p)) roles = .view .children ↔
      roles.any (fun r => normRole r == normRole p.role) = true) ∧
    (roles.any (fun r => normRole r == normRole p.role) = false →
      resolveGate (some s) (.ok (some p)) roles = .view .forbidden403) := by
  unfold resolveGate checkAuthState
  cases hb : roles.any (fun r => normRole r == normRole p.role) with
  | true => simp [hb, renderGate]
  | false => simp [hb, renderGate]

/-- C6 witness: a profile role differing from the allowed role only in
case and surrounding whitespace is let through, and a different role gets
the 403 view. -/
theorem gate_role_decision_witness :
    resolveGate (some { userId := "u1" })
      (.ok (some { id := "u1", role := "  psicologa ", full_name := "P" }))
      ["PSICOLOGA"] = .view .children ∧
    resolveGate (some { userId := "u1" })
      (.ok (some { id := "u2", role := "docente", full_name := "D" }))
      ["PSICOLOGA"] = .view .forbidden403 :=
  ⟨(gate_role_decision _ _ _).1.mpr (by decide),
   (gate_role_decision _ _ _).2 (by decide)⟩

/-! ## C7: appointment status transitions -/

/-- C7 counterexample: the claim says no operation changes the status of
an appointment that is already completed.  The cancel action on a store
holding a completed appointment overwrites its status anyway, because none
of the update sites consults the current status. -/
theorem appointment_completed_then_cancelled :
    completedAppt.status = "completed" ∧
    lookupAppointment (cancelAppointment [completedAppt] 1) 1
      = some { completedAppt with status := "cancelled" } := by decide

/-- Helper: the row-by-row frame check holds for every status update. -/
theorem updatePreservesFrame_true (store : List Appointment) (i : Nat)
    (st : String) : updatePreservesFrame store i st = true := by
  induction store with
  | nil => rfl
  | cons a l ih =>
    unfold updatePreservesFrame updateAppointmentStatus at *
    simp only [List.map_cons, List.zip_cons_cons, List.all_cons,
      Bool.and_eq_true]
    refine ⟨?_, ih⟩
    by_cases h : a.id = i <;> simp [onlyStatusChanged, h]

/-- C7 amended: the status-update sites (cancel, session-logged
completion, and the status PATCH of the local server) write only the
status field of the rows with the targeted id and leave every other field
and every other row unchanged; they do not consult the current status, so
they overwrite completed or cancelled appointments as well; no operation
updates any other appointment field after creation. -/
theorem appointment_updates_touch_only_status (store : List Appointment)
    (i : Nat) (st : String) :
    updatePreservesFrame store i st = true ∧
    cancelAppointment store i = updateAppointmentStatus store i "cancelled" ∧
    completeAppointment store i = updateAppointmentStatus store i "completed" :=
  ⟨updatePreservesFrame_true store i st, rfl, rfl⟩

/-! ## C8: cancelled appointment leaves the pending view, stays readable -/

/-- Helper: any row of an updated store whose id is the target carries the
new status. -/
theorem updateStatus_target_status (store : List Appointment) (i : Nat)
    (st : String) :
    ∀ b ∈ updateAppointmentStatus store i st, b.id = i → b.status = st := by
  intro b hb hbid
  simp only [updateAppointmentStatus, List.mem_map] at hb
  obtain ⟨a0, _, rfl⟩ := hb
  by_cases h : a0.id = i
  · simp [h]
  · simp only [if_neg h] at hbid ⊢
    exact absurd hbid h

/-- Helper: looking up the target id after a status update returns the
previously found row with only its status replaced. -/
theorem lookup_after_update (store : List Appointment) (i : Nat)
    (st : String) (a : Appointment)
    (h : lookupAppointment store i = some a) :
    lookupAppointment (updateAppointmentStatus store i st) i
      = some { a with status := st } := by
  unfold lookupAppointment updateAppointmentStatus at *
  rw [List.find?_map]
  have hfun : ((fun b : Appointment => b.id == i) ∘
      (fun a => if a.id = i then { a with status := st } else a))
      = (fun a : Appointment => a.id == i) := by
    funext x
    by_cases hx : x.id = i <;> simp [hx]
  rw [hfun, h]
  have hid : a.id = i := by simpa using List.find?_some h
  simp [hid]

/-- C8: after cancelling an appointment, neither pending query (the local
server one nor the per-psychologist one) contains any row with its id,
while direct id lookup returns the same record with only the status
changed to cancelled. -/
theorem cancel_removes_pending_keeps_record (store : List Appointment)
    (i uid : Nat) (a : Appointment)
    (h : lookupAppointment store i = some a) :
    (pendingAppointments (cancelAppointment store i)).all
      (fun b => b.id != i) = true ∧
    (fetchAppointmentsFor (cancelAppointment store i) uid).all
      (fun b => b.id != i) = true ∧
    lookupAppointment (cancelAppointment store i) i
      = some { a with status := "cancelled" } := by
  have key : ∀ b ∈ cancelAppointment store i,
      b.status == "pending" → b.id != i := by
    intro b hb hp
    have : b.id = i → b.status = "cancelled" :=
      updateStatus_target_status store i "cancelled" b hb
    by_cases hbid : b.id = i
    · rw [this hbid] at hp
      exact absurd hp (by decide)
    · simpa using hbid
  refine ⟨?_, ?_, lookup_after_update store i "cancelled" a h⟩
  · rw [List.all_eq_true]
    intro b hb
    rw [pendingAppointments, List.mem_mergeSort, List.mem_filter] at hb
    exact key b hb.1 hb.2
  · rw [List.all_eq_true]
    intro b hb
    rw [fetchAppointmentsFor, List.mem_mergeSort, List.mem_filter,
      Bool.and_eq_true] at hb
    exact key b hb.1 hb.2.2

/-- C8 witness: cancelling the first demo appointment empties it out of
both pending views and leaves it retrievable with status cancelled. -/
theorem cancel_removes_pending_keeps_record_witness :
    (pendingAppointments (cancelAppointment demoStore 1)).all
      (fun b => b.id != 1) = true ∧
    (fetchAppointmentsFor (cancelAppointment demoStore 1) 1).all
      (fun b => b.id != 1) = true ∧
    lookupAppointment (cancelAppointment demoStore 1) 1
      = some { pendingAppt with status := "cancelled" } :=
  cancel_removes_pending_keeps_record demoStore 1 1 pendingAppt rfl

/-! ## PDF layout helper lemmas -/

/-- Helper: numeric value of the bottom-margin threshold. -/
theorem limitY_eq : limitY = 269 := rfl

/-- Helper: a page keeping its head keeps the continuation check. -/
theorem headCont_append (pg l : List PdfItem) (h : headCont pg = true) :
    headCont (pg ++ l) = true := by
  cases pg with
  | nil => simp [headCont] at h
  | cons x xs => simpa [headCont] using h

/-- Helper: the continuation check of pages with one page added at the
end. -/
theorem contOkB_snoc (X : List (List PdfItem)) (pg : List PdfItem)
    (hx : contOkB X = true) (hne : X ≠ []) (hpg : headCont pg = true) :
    contOkB (X ++ [pg]) = true := by
  cases X with
  | nil => exact absurd rfl hne
  | cons x xs =>
    show (xs ++ [pg]).all headCont = true
    rw [List.all_append]
    have hxs : xs.all headCont = true := hx
    simp [hxs, hpg]

/-- Helper: newPage preserves the layout invariant. -/
theorem newPage_stOk (s : PdfState) (h : stOk s) : stOk (newPage s) := by
  obtain ⟨h1, h2, h3⟩ := h
  refine ⟨?_, rfl, ?_⟩
  · show docOkB (s.done ++ [s.cur]) = true
    unfold docOkB at h1 ⊢
    rw [List.all_append]
    simp [h1, h2]
  · show contOkB ((s.done ++ [s.cur]) ++ [[contItem]]) = true
    refine contOkB_snoc _ _ h3 (by simp) (by simp [headCont])

/-- Helper: emitting an item whose height budget holds preserves the
layout invariant. -/
theorem emit_stOk (it : PdfItem) (s : PdfState) (h : stOk s)
    (hit : itemOk it = true) : stOk (emit it s) := by
  obtain ⟨h1, h2, h3⟩ := h
  refine ⟨h1, ?_, ?_⟩
  · show pageOkB (s.cur ++ [it]) = true
    unfold pageOkB at *
    rw [List.all_append]
    simp [h2, hit]
  · show contOkB (s.done ++ [s.cur ++ [it]]) = true
    cases hd : s.done with
    | nil => rfl
    | cons d ds =>
      rw [hd] at h3
      have h3a : (ds ++ [s.cur]).all headCont = true := h3
      rw [List.all_append] at h3a
      simp only [Bool.and_eq_true, List.all_cons, List.all_nil,
        Bool.and_true] at h3a
      show (ds ++ [s.cur ++ [it]]).all headCont = true
      rw [List.all_append]
      simp only [Bool.and_eq_true, List.all_cons, List.all_nil,
        Bool.and_true]
      exact ⟨h3a.1, headCont_append _ _ h3a.2⟩

/-- Helper: moving the cursor preserves the layout invariant. -/
theorem setY_stOk (s : PdfState) (v : Nat) (h : stOk s) :
    stOk { s with y := v } := h

/-- Helper: checkPage preserves the layout invariant. -/
theorem checkPage_stOk (n : Nat) (s : PdfState) (h : stOk s) :
    stOk (checkPage n s) := by
  unfold checkPage
  by_cases hc : limitY < s.y + n
  · rw [if_pos hc]; exact newPage_stOk s h
  · rw [if_neg hc]; exact h

/-- Helper: after checkPage, the needed height fits above the bottom
margin, for every needed height a fresh page can hold. -/
theorem checkPage_y (n : Nat) (s : PdfState) (hn : n ≤ 247) :
    (checkPage n s).y + n ≤ limitY := by
  unfold checkPage
  by_cases hc : limitY < s.y + n
  · rw [if_pos hc]
    show 22 + n ≤ limitY
    rw [limitY_eq]
    omega
  · rw [if_neg hc]
    rw [limitY_eq] at hc ⊢
    omega

/-- Helper: drawing the wrapped lines of a section preserves the layout
invariant, for every list of lines. -/
theorem printLines_stOk (sec : Nat) (lines : List String) :
    ∀ s : PdfState, stOk s → stOk (printLines sec lines s) := by
  induction lines with
  | nil => intro s h; exact h
  | cons line rest ih =>
    intro s h
    unfold printLines
    refine ih _ (setY_stOk _ _ (emit_stOk _ _ (checkPage_stOk 7 s h) ?_))
    exact decide_eq_true (checkPage_y 7 s (by norm_num))

/-- Helper: printSection preserves the layout invariant. -/
theorem printSection_stOk (title txt : String) (gap sec : Nat)
    (s : PdfState) (h : stOk s) : stOk (printSection title txt gap sec s) := by
  unfold printSection
  apply printLines_stOk
  apply setY_stOk
  refine emit_stOk _ _ (checkPage_stOk 12 _ (setY_stOk _ _ h)) ?_
  exact decide_eq_true (checkPage_y 12 _ (by norm_num))

/-- Helper: the table rows preserve the layout invariant. -/
theorem emitTableRows_stOk (rows : List (String × String)) :
    ∀ (rowY : Nat) (s : PdfState), stOk s →
      stOk (emitTableRows rowY rows s) := by
  induction rows with
  | nil => intro _ s h; exact h
  | cons r rest ih =>
    intro rowY s h
    unfold emitTableRows
    exact ih _ _ (emit_stOk _ _ h rfl)

/-- Helper: the table model preserves the layout invariant. -/
theorem autoTable_stOk (startY : Nat) (rows : List (String × String))
    (s : PdfState) (h : stOk s) : stOk (autoTableModel startY rows s) := by
  unfold autoTableModel
  exact setY_stOk _ _ (emitTableRows_stOk rows startY s h)

/-- Helper: the whole content layout satisfies the invariant, for every
record and date string. -/
theorem layout_stOk (dateStr : String) (a : Attention) :
    stOk (layoutAttention dateStr a) := by
  unfold layoutAttention
  refine emit_stOk _ _ ?_ rfl
  apply setY_stOk
  refine emit_stOk _ _ ?_ rfl
  apply setY_stOk
  refine emit_stOk _ _ ?_ rfl
  apply checkPage_stOk
  apply setY_stOk
  apply printSection_stOk
  apply printSection_stOk
  apply printSection_stOk
  apply setY_stOk
  apply autoTable_stOk
  apply setY_stOk
  refine emit_stOk _ _ ?_ rfl
  refine emit_stOk _ _ ?_ rfl
  refine emit_stOk _ _ ?_ rfl
  refine emit_stOk _ _ ?_ rfl
  exact ⟨rfl, rfl, rfl⟩

/-- Helper: the footer pass keeps the page count. -/
theorem stampFrom_length (t : String) (total : Nat)
    (pages : List (List PdfItem)) :
    ∀ p : Nat, (stampFrom t total p pages).length = pages.length := by
  induction pages with
  | nil => intro p; rfl
  | cons pg rest ih =>
    intro p
    unfold stampFrom
    simp [ih]

/-- Helper: after stamping from page number p with a fixed total, every
page carries its own page-indicator footer with that total. -/
theorem footerStampedFrom_stampFrom (t : String) (total : Nat)
    (pages : List (List PdfItem)) :
    ∀ p : Nat, footerStampedFrom total p (stampFrom t total p pages) = true := by
  induction pages with
  | nil => intro p; rfl
  | cons pg rest ih =>
    intro p
    unfold stampFrom footerStampedFrom
    rw [Bool.and_eq_true]
    exact ⟨by simp, ih (p + 1)⟩

/-- Helper: the full footer pass stamps every page with the actual total
page count. -/
theorem footerStamped_addFooters (t : String) (pages : List (List PdfItem)) :
    footerStamped (addFooters t pages) = true := by
  unfold footerStamped addFooters
  rw [stampFrom_length]
  exact footerStampedFrom_stampFrom t pages.length pages 1

/-- Helper: the footer pass preserves the bottom-margin check. -/
theorem docOkB_stampFrom (t : String) (total : Nat)
    (pages : List (List PdfItem)) :
    ∀ p : Nat, docOkB pages = true →
      docOkB (stampFrom t total p pages) = true := by
  induction pages with
  | nil => intro p _; rfl
  | cons pg rest ih =>
    intro p h
    unfold docOkB at *
    rw [List.all_cons, Bool.and_eq_true] at h
    unfold stampFrom
    rw [List.all_cons, Bool.and_eq_true]
    refine ⟨?_, ih (p + 1) h.2⟩
    unfold pageOkB at *
    rw [List.all_append, h.1]
    rfl

/-- Helper: the footer pass preserves the heads of all pages. -/
theorem allHeads_stampFrom (t : String) (total : Nat)
    (pages : List (List PdfItem)) :
    ∀ p : Nat, pages.all headCont = true →
      (stampFrom t total p pages).all headCont = true := by
  induction pages with
  | nil => intro p _; rfl
  | cons pg rest ih =>
    intro p h
    rw [List.all_cons, Bool.and_eq_true] at h
    unfold stampFrom
    rw [List.all_cons, Bool.and_eq_true]
    exact ⟨headCont_append _ _ h.1, ih (p + 1) h.2⟩

/-- Helper: the footer pass preserves the continuation-header check. -/
theorem contOkB_stampFrom (t : String) (total : Nat)
    (pages : List (List PdfItem)) (p : Nat) (h : contOkB pages = true) :
    contOkB (stampFrom t total p pages) = true := by
  cases pages with
  | nil => rfl
  | cons pg rest =>
    unfold stampFrom
    show (stampFrom t total (p + 1) rest).all headCont = true
    exact allHeads_stampFrom t total rest (p + 1) h

/-- Helper: closing the current page preserves the bottom-margin check. -/
theorem docOkB_append_single (X : List (List PdfItem)) (pg : List PdfItem)
    (h1 : docOkB X = true) (h2 : pageOkB pg = true) :
    docOkB (X ++ [pg]) = true := by
  unfold docOkB at *
  rw [List.all_append]
  simp [h1, h2]

/-! ## Section-content helper lemmas -/

/-- Helper: the section filter distributes over item concatenation. -/
theorem sectionFilter_append (i : Nat) (l m : List PdfItem) :
    sectionFilter i (l ++ m) = sectionFilter i l ++ sectionFilter i m := by
  unfold sectionFilter
  exact List.filterMap_append l m _

/-- Helper: the cursor move keeps the item list. -/
theorem stateItems_setY (s : PdfState) (v : Nat) :
    stateItems { s with y := v } = stateItems s := rfl

/-- Helper: emitting appends one item. -/
theorem stateItems_emit (it : PdfItem) (s : PdfState) :
    stateItems (emit it s) = stateItems s ++ [it] := by
  simp [stateItems, emit]

/-- Helper: a page break appends only the continuation header item. -/
theorem stateItems_newPage (s : PdfState) :
    stateItems (newPage s) = stateItems s ++ [contItem] := by
  simp [stateItems, newPage]

/-- Helper: a page-break check never adds section lines. -/
theorem sectionFilter_checkPage (i n : Nat) (s : PdfState) :
    sectionFilter i (stateItems (checkPage n s))
      = sectionFilter i (stateItems s) := by
  unfold checkPage
  by_cases hc : limitY < s.y + n
  · rw [if_pos hc, stateItems_newPage, sectionFilter_append]
    simp [sectionFilter, contItem]
  · rw [if_neg hc]

/-- Helper: drawing the wrapped lines of section j appends exactly those
lines to the texts of section j and nothing to any other section. -/
theorem sectionFilter_printLines (i j : Nat) (lines : List String) :
    ∀ s : PdfState, sectionFilter i (stateItems (printLines j lines s))
      = sectionFilter i (stateItems s)
        ++ (if j = i then lines else []) := by
  induction lines with
  | nil => intro s; by_cases hj : j = i <;> simp [printLines, hj]
  | cons line rest ih =>
    intro s
    unfold printLines
    rw [ih, stateItems_setY, stateItems_emit, sectionFilter_append,
      sectionFilter_checkPage]
    by_cases hj : j = i <;> simp [sectionFilter, hj]

/-- Helper: one printSection call appends exactly the wrapped lines of its
text (or of the placeholder dash) to its own section and nothing
elsewhere. -/
theorem sectionFilter_printSection (i j : Nat) (title txt : String)
    (gap : Nat) (s : PdfState) :
    sectionFilter i (stateItems (printSection title txt gap j s))
      = sectionFilter i (stateItems s)
        ++ (if j = i then splitTextToSize (jsOr txt dash) contentW
            else []) := by
  unfold printSection
  rw [sectionFilter_printLines]
  simp only [stateItems_setY, stateItems_emit, sectionFilter_append,
    sectionFilter_checkPage]
  simp [sectionFilter]

/-- Helper: the table rows add no section lines. -/
theorem sectionFilter_emitTableRows (i : Nat)
    (rows : List (String × String)) :
    ∀ (rowY : Nat) (s : PdfState),
      sectionFilter i (stateItems (emitTableRows rowY rows s))
        = sectionFilter i (stateItems s) := by
  induction rows with
  | nil => intro _ s; rfl
  | cons r rest ih =>
    intro rowY s
    unfold emitTableRows
    rw [ih, stateItems_emit, sectionFilter_append]
    simp [sectionFilter]

/-- Helper: the whole layout produces as section texts exactly the wrapped
lines of the three free-text fields. -/
theorem sectionFilter_layout (i : Nat) (ds : String) (a : Attention) :
    sectionFilter i (stateItems (layoutAttention ds a))
      = (if 1 = i then splitTextToSize (jsOr a.reason dash) contentW
         else [])
        ++ (if 2 = i then
              splitTextToSize (jsOr a.observations dash) contentW
            else [])
        ++ (if 3 = i then
              splitTextToSize (jsOr a.recommendations dash) contentW
            else []) := by
  unfold layoutAttention autoTableModel
  simp only [stateItems_setY, stateItems_emit, sectionFilter_append,
    sectionFilter_checkPage, sectionFilter_printSection,
    sectionFilter_emitTableRows]
  simp [sectionFilter, stateItems]

/-- Helper: the footer pass adds no section lines. -/
theorem sectionFilter_stampFrom (i : Nat) (t : String) (total : Nat)
    (pages : List (List PdfItem)) :
    ∀ p : Nat, sectionFilter i ((stampFrom t total p pages).flatMap id)
      = sectionFilter i (pages.flatMap id) := by
  induction pages with
  | nil => intro p; rfl
  | cons pg rest ih =>
    intro p
    unfold stampFrom
    simp only [List.flatMap_cons, id_eq, sectionFilter_append, ih]
    simp [sectionFilter, pageFooterItem]

/-- Helper: the section texts of a generated document are exactly the
wrapped lines of the corresponding free-text field. -/
theorem sectionTexts_gen (t : String) (a : Attention) (ds : String)
    (hf : formatLongDate a.date = some ds) (i : Nat) :
    sectionTexts (pdfPagesOf t a) i
      = (if 1 = i then splitTextToSize (jsOr a.reason dash) contentW
         else [])
        ++ (if 2 = i then
              splitTextToSize (jsOr a.observations dash) contentW
            else [])
        ++ (if 3 = i then
              splitTextToSize (jsOr a.recommendations dash) contentW
            else []) := by
  unfold sectionTexts pdfPagesOf generateAttentionPDF
  rw [hf]
  show sectionFilter i
      ((addFooters t ((layoutAttention ds a).done
        ++ [(layoutAttention ds a).cur])).flatMap id) = _
  unfold addFooters
  rw [sectionFilter_stampFrom]
  have hitems : ((layoutAttention ds a).done
      ++ [(layoutAttention ds a).cur]).flatMap id
      = stateItems (layoutAttention ds a) := by
    simp [stateItems]
  rw [hitems, sectionFilter_layout]

/-! ## C2: empty free-text fields render placeholder dashes -/

/-- C2 counterexample: the claim says generation never throws when the
three free-text fields are empty.  On the record with empty free-text
fields and an empty date string, the Date constructor yields an invalid
date, the formatter throws before any section is drawn, and no document is
produced. -/
theorem pdf_empty_texts_empty_date_throws :
    emptyDateAttention.reason = "" ∧
    emptyDateAttention.observations = "" ∧
    emptyDateAttention.recommendations = "" ∧
    generateAttentionPDF "t" emptyDateAttention = none := by decide

set_option maxRecDepth 1000000 in
set_option maxHeartbeats 4000000 in
/-- C2 amended: for every record whose free-text fields are all empty and
whose date field is a valid date string, generation completes and each of
the three sections renders exactly the placeholder dash in place of the
missing text. -/
theorem pdf_empty_texts_render_dashes (t : String) (a : Attention)
    (hd : (parseISODate a.date).isSome = true) (h1 : a.reason = "")
    (h2 : a.observations = "") (h3 : a.recommendations = "") :
    (generateAttentionPDF t a).isSome = true ∧
    sectionTexts (pdfPagesOf t a) 1 = [dash] ∧
    sectionTexts (pdfPagesOf t a) 2 = [dash] ∧
    sectionTexts (pdfPagesOf t a) 3 = [dash] := by
  obtain ⟨v, hv⟩ := Option.isSome_iff_exists.mp hd
  have hf : formatLongDate a.date = some
      (pad2 v.2.2 ++ " de " ++ monthNameEs v.2.1 ++ ", " ++ toString v.1) := by
    unfold formatLongDate
    rw [hv]
    rfl
  refine ⟨?_, ?_, ?_, ?_⟩
  · unfold generateAttentionPDF
    rw [hf]
    rfl
  · rw [sectionTexts_gen t a _ hf 1, h1]
    rfl
  · rw [sectionTexts_gen t a _ hf 2, h2]
    rfl
  · rw [sectionTexts_gen t a _ hf 3, h3]
    rfl

set_option maxRecDepth 1000000 in
set_option maxHeartbeats 4000000 in
/-- C2 witness: the concrete record with empty free-text fields and date
2026-02-15 generates a document whose three sections each hold exactly the
dash. -/
theorem pdf_empty_texts_render_dashes_witness :
    (generateAttentionPDF "t" emptyTextsAttention).isSome = true ∧
    sectionTexts (pdfPagesOf "t" emptyTextsAttention) 1 = [dash] ∧
    sectionTexts (pdfPagesOf "t" emptyTextsAttention) 2 = [dash] ∧
    sectionTexts (pdfPagesOf "t" emptyTextsAttention) 3 = [dash] :=
  pdf_empty_texts_render_dashes "t" emptyTextsAttention (by decide)
    rfl rfl rfl

/-! ## C3: deferred footer pass with the final page count -/

/-- C3: for every record whose generation succeeds and produces more than
one page, every page p of the document carries the page-indicator footer
reading page p out of N where N is the actual total page count, stamped in
the second pass after layout is complete. -/
theorem pdf_footer_counts_match (t : String) (a : Attention)
    (hs : (generateAttentionPDF t a).isSome = true)
    (_hmulti : 2 ≤ (pdfPagesOf t a).length) :
    footerStamped (pdfPagesOf t a) = true := by
  cases hf : formatLongDate a.date with
  | none =>
    unfold generateAttentionPDF at hs
    rw [hf] at hs
    simp at hs
  | some ds =>
    unfold pdfPagesOf generateAttentionPDF
    rw [hf]
    exact footerStamped_addFooters t _

set_option maxRecDepth 1000000 in
set_option maxHeartbeats 4000000 in
/-- C3 witness: the record with a 25-line reason produces two pages and
every page carries the correct page-indicator footer. -/
theorem pdf_footer_counts_match_witness :
    2 ≤ (pdfPagesOf "t" longAttention).length ∧
    footerStamped (pdfPagesOf "t" longAttention) = true :=
  ⟨by decide, pdf_footer_counts_match "t" longAttention (by decide) (by decide)⟩

/-! ## C4: page-break discipline of the layout -/

set_option maxRecDepth 1000000 in
set_option maxHeartbeats 4000000 in
/-- C4: in every generated document, every wrapped free-text line sits at
a cursor position whose own height of 7 stays above the bottom margin and
every section title likewise fits its checked height of 12 (the per-block
and per-line checkPage guards), every page after the first begins with the
continuation mini-header drawn after the cursor reset; and on the concrete
two-page document the wrapped lines of the first section appear on both
pages, splitting mid-paragraph. -/
theorem pdf_page_break_discipline (t : String) (a : Attention) :
    (docOkB (pdfPagesOf t a) = true ∧ contOkB (pdfPagesOf t a) = true) ∧
    (sectionOnPage (pdfPagesOf "t" longAttention) 0 1 = true ∧
     sectionOnPage (pdfPagesOf "t" longAttention) 1 1 = true) := by
  constructor
  · cases hf : formatLongDate a.date with
    | none =>
      unfold pdfPagesOf generateAttentionPDF
      rw [hf]
      exact ⟨rfl, rfl⟩
    | some ds =>
      unfold pdfPagesOf generateAttentionPDF
      rw [hf]
      obtain ⟨h1, h2, h3⟩ := layout_stOk ds a
      constructor
      · exact docOkB_stampFrom _ _ _ _ (docOkB_append_single _ _ h1 h2)
      · exact contOkB_stampFrom _ _ _ _ h3
  · exact ⟨by decide, by decide⟩

/-! ## C9: deterministic filename from student name and date -/

/-- C9: the filename of a generated document is Atencion_ followed by the
student name with every whitespace run replaced by one underscore, an
underscore, the date string and .pdf; two generations agreeing on student
name and date yield the same filename whatever the other fields and the
generation time are. -/
theorem pdf_filename_from_name_and_date (t1 t2 : String) (a b : Attention)
    (d1 d2 : List (List PdfItem)) (f1 f2 : String)
    (h1 : generateAttentionPDF t1 a = some (d1, f1))
    (h2 : generateAttentionPDF t2 b = some (d2, f2))
    (hn : a.student_name = b.student_name) (hd : a.date = b.date) :
    f1 = "Atencion_" ++ replaceWsRuns a.student_name ++ "_" ++ a.date
      ++ ".pdf" ∧ f1 = f2 := by
  have e1 : f1 = pdfFileName a := by
    unfold generateAttentionPDF at h1
    cases hf : formatLongDate a.date with
    | none => rw [hf] at h1; simp at h1
    | some ds =>
      rw [hf] at h1
      simp only [Option.some.injEq, Prod.mk.injEq] at h1
      exact h1.2.symm
  have e2 : f2 = pdfFileName b := by
    unfold generateAttentionPDF at h2
    cases hf : formatLongDate b.date with
    | none => rw [hf] at h2; simp at h2
    | some ds =>
      rw [hf] at h2
      simp only [Option.some.injEq, Prod.mk.injEq] at h2
      exact h2.2.symm
  constructor
  · rw [e1]; rfl
  · rw [e1, e2]
    unfold pdfFileName
    rw [hn, hd]

set_option maxRecDepth 1000000 in
set_option maxHeartbeats 4000000 in
/-- C9 witness: two records agreeing only on student name and date, with
different grades, times, free texts, psychologists and generation times,
produce the same filename, equal to the stated formula. -/
theorem pdf_filename_from_name_and_date_witness :
    pdfNameOf "t" emptyTextsAttention
      = "Atencion_" ++ replaceWsRuns emptyTextsAttention.student_name
        ++ "_" ++ emptyTextsAttention.date ++ ".pdf" ∧
    pdfNameOf "t" emptyTextsAttention = pdfNameOf "u" variantAttention :=
  pdf_filename_from_name_and_date "t" "u" emptyTextsAttention
    variantAttention
    (pdfPagesOf "t" emptyTextsAttention) (pdfPagesOf "u" variantAttention)
    (pdfNameOf "t" emptyTextsAttention) (pdfNameOf "u" variantAttention)
    rfl rfl rfl rfl

/-! ## C10: login endpoint never returns the stored password -/

/-- C10: the login response carries no password key for any user table and
any credentials; a failed match answers unauthorized with no user data;
and a successful match returns exactly the stored row minus the password
field. -/
theorem login_never_returns_password (users : List UserRow)
    (un pw : String) (u : UserRow) :
    ("password" ∈ resultFieldKeys (loginHandler users un pw) → False) ∧
    (findUser users un pw = none →
      loginHandler users un pw = .unauthorized) ∧
    (findUser users un pw = some u →
      loginHandler users un pw = .ok
        [("id", toString u.id), ("username", u.username),
         ("full_name", u.full_name)]) := by
  refine ⟨?_, ?_, ?_⟩
  · intro hmem
    unfold loginHandler at hmem
    cases hf : findUser users un pw with
    | none => rw [hf] at hmem; simp [resultFieldKeys] at hmem
    | some v =>
      rw [hf] at hmem
      simp only [resultFieldKeys, List.mem_map] at hmem
      obtain ⟨f, hfmem, hfst⟩ := hmem
      have := (List.mem_filter.mp hfmem).2
      rw [hfst] at this
      simp at this
  · intro hf
    unfold loginHandler
    rw [hf]
  · intro hf
    unfold loginHandler
    rw [hf]
    rfl

/-- C10 witness: the seeded credentials return the row without its
password field, and a wrong password returns the unauthorized answer. -/
theorem login_never_returns_password_witness :
    loginHandler demoUsers "admin" "admin123"
      = .ok [("id", "1"), ("username", "admin"),
             ("full_name", "Psic. Principal")] ∧
    loginHandler demoUsers "admin" "wrong" = .unauthorized :=
  ⟨by rw [(login_never_returns_password demoUsers "admin" "admin123"
      demoUser).2.2 rfl]; rfl,
   (login_never_returns_password demoUsers "admin" "wrong" demoUser).2.1 rfl⟩

end PsychApp
